import Mathlib

/-!
# Verification of the CNFL client-side data/auth layer

Shallow embedding of the snapshot-store reconciliation (`handleDbChange`),
the initial load (`fetchData`), and the session-manager operations
(`register`, `logout`) of the explorecnfl repository, together with proofs
of the specified invariants and scenarios.

Rows of the backing store are untyped (`any`) in the source; we model a row
as a record carrying the fields the algorithms inspect (`id`, `timestamp`
in epoch milliseconds as produced by `new Date(x).getTime()`, the
`seasonNumber` string, the player `points` list and the site-settings flag).
-/

namespace Cnfl

/-- A database row. The source treats rows as untyped dictionaries; this
record carries every field the reconciliation code reads. -/
structure Rec where
  id : String
  timestamp : Int := 0
  seasonNumber : String := ""
  points : List Int := []
  showParticipantTeams : Bool := false
deriving Repr, DecidableEq

/-- The nine list-valued collections of `AppState` (`siteSettings`, the
singleton, is kept separately). -/
inductive StateKey where
  | users | events | teams | players | participantTeams
  | replacementRequests | announcements | chatMessages | cnflHistory
deriving Repr, DecidableEq

/-- The snapshot (`AppState` in `DataContext.tsx`): nine lists plus the
`siteSettings` singleton. -/
structure AppState where
  users : List Rec
  events : List Rec
  teams : List Rec
  players : List Rec
  participantTeams : List Rec
  replacementRequests : List Rec
  announcements : List Rec
  chatMessages : List Rec
  cnflHistory : List Rec
  siteSettings : Rec
deriving Repr, DecidableEq

/-- The default singleton `{ showParticipantTeams: false }`. -/
def defaultSiteSettings : Rec := { id := "" }

/-- `INITIAL_STATE` from `DataContext.tsx`. -/
def initialState : AppState :=
  { users := [], events := [], teams := [], players := [], participantTeams := []
    replacementRequests := [], announcements := [], chatMessages := []
    cnflHistory := [], siteSettings := defaultSiteSettings }

/-- Read one of the nine list collections. -/
def getCol (k : StateKey) (s : AppState) : List Rec :=
  match k with
  | .users => s.users
  | .events => s.events
  | .teams => s.teams
  | .players => s.players
  | .participantTeams => s.participantTeams
  | .replacementRequests => s.replacementRequests
  | .announcements => s.announcements
  | .chatMessages => s.chatMessages
  | .cnflHistory => s.cnflHistory

/-- Replace one of the nine list collections. -/
def setCol (k : StateKey) (l : List Rec) (s : AppState) : AppState :=
  match k with
  | .users => { s with users := l }
  | .events => { s with events := l }
  | .teams => { s with teams := l }
  | .players => { s with players := l }
  | .participantTeams => { s with participantTeams := l }
  | .replacementRequests => { s with replacementRequests := l }
  | .announcements => { s with announcements := l }
  | .chatMessages => { s with chatMessages := l }
  | .cnflHistory => { s with cnflHistory := l }

/-- `tableKeyMap` from `handleDbChange`: table name to state key. -/
def tableKeyMap (table : String) : Option StateKey :=
  if table = "profiles" then some .users
  else if table = "events" then some .events
  else if table = "teams" then some .teams
  else if table = "players" then some .players
  else if table = "participant_teams" then some .participantTeams
  else if table = "replacement_requests" then some .replacementRequests
  else if table = "announcements" then some .announcements
  else if table = "chat_messages" then some .chatMessages
  else if table = "cnfl_history" then some .cnflHistory
  else none

/-- The realtime operation kinds. -/
inductive EventType where
  | INSERT | UPDATE | DELETE
deriving Repr, DecidableEq

/-- A realtime change payload `{ table, eventType, new, old }`. -/
structure ChangePayload where
  table : String
  eventType : EventType
  newRecord : Rec
  oldRecord : Rec
deriving Repr, DecidableEq

/-- The id the event is about: `oldRecord.id` for DELETE, `newRecord.id`
otherwise (line `const recordId = ...`). -/
def recordIdOf (e : ChangePayload) : String :=
  match e.eventType with
  | .DELETE => e.oldRecord.id
  | _ => e.newRecord.id

/-- The list mutation of `handleDbChange` before re-sorting: guarded append
for INSERT, replace-or-append for UPDATE, filter for DELETE. -/
def applyOp (eventType : EventType) (newRecord oldRecord : Rec)
    (items : List Rec) : List Rec :=
  let recordId := match eventType with
    | .DELETE => oldRecord.id
    | _ => newRecord.id
  match eventType with
  | .INSERT =>
      if items.any (fun item => item.id == recordId) then items
      else items ++ [newRecord]
  | .UPDATE =>
      match items.findIdx? (fun item => item.id == recordId) with
      | some index => items.set index newRecord
      | none => items ++ [newRecord]
  | .DELETE => items.filter (fun item => item.id != recordId)

/-- Comparator for announcements: `new Date(b.timestamp) - new Date(a.timestamp)`,
i.e. timestamp descending. -/
def annLe (a b : Rec) : Bool := decide (b.timestamp ≤ a.timestamp)

/-- Comparator for chat messages: timestamp ascending. -/
def chatLe (a b : Rec) : Bool := decide (a.timestamp ≤ b.timestamp)

/-- Comparator for history: `a.seasonNumber.localeCompare(b.seasonNumber)`,
modelled as lexicographic string order ascending. -/
def histLe (a b : Rec) : Bool := decide (a.seasonNumber ≤ b.seasonNumber)

/-- The `// Keep sorted lists sorted` step: announcements, chatMessages and
cnflHistory are re-sorted after the mutation; other collections keep their
order. JS `Array.sort` (stable, total comparator) is modelled by
`List.mergeSort`. -/
def sortFor (k : StateKey) (items : List Rec) : List Rec :=
  match k with
  | .announcements => items.mergeSort annLe
  | .chatMessages => items.mergeSort chatLe
  | .cnflHistory => items.mergeSort histLe
  | _ => items

/-- `handleDbChange` from `DataContext.tsx`: apply one realtime change
payload to the snapshot. A `site_settings` event replaces the singleton on
INSERT/UPDATE and is otherwise ignored; an unknown table is ignored; a
mapped table gets the list mutation followed by the conditional re-sort. -/
def handleDbChange (payload : ChangePayload) (state : AppState) : AppState :=
  if payload.table = "site_settings" then
    match payload.eventType with
    | .UPDATE => { state with siteSettings := payload.newRecord }
    | .INSERT => { state with siteSettings := payload.newRecord }
    | .DELETE => state
  else
    match tableKeyMap payload.table with
    | none => state
    | some stateKey =>
        let items := applyOp payload.eventType payload.newRecord payload.oldRecord
          (getCol stateKey state)
        setCol stateKey (sortFor stateKey items) state

/-- Apply a sequence of change events in arrival order. -/
def applyEvents (es : List ChangePayload) (s : AppState) : AppState :=
  es.foldl (fun state e => handleDbChange e state) s

/-- Number of entries of a collection carrying a given id. -/
def countId (i : String) (l : List Rec) : Nat :=
  (l.filter (fun r => r.id == i)).length

/-- No two entries of the collection share an id. -/
def uniqueIds (l : List Rec) : Prop := ∀ i, countId i l ≤ 1

/-- Every list collection of the snapshot has unique ids. -/
def uniqueSnapshot (s : AppState) : Prop := ∀ k, uniqueIds (getCol k s)

/-- Does the event target collection `k` at id `i`? -/
def eventTargets (k : StateKey) (i : String) (e : ChangePayload) : Bool :=
  decide (tableKeyMap e.table = some k) && (recordIdOf e == i)

/-- The last event of the sequence that targets collection `k` at id `i`. -/
def lastEventFor (k : StateKey) (i : String) : List ChangePayload → Option ChangePayload
  | [] => none
  | e :: es =>
      match lastEventFor k i es with
      | some r => some r
      | none => if eventTargets k i e then some e else none

/-- Non-increasing timestamps (announcement order). -/
def annSorted (l : List Rec) : Prop :=
  l.Pairwise (fun a b => b.timestamp ≤ a.timestamp)

/-- Non-decreasing timestamps (chat order). -/
def chatSorted (l : List Rec) : Prop :=
  l.Pairwise (fun a b => a.timestamp ≤ b.timestamp)

/-- Non-decreasing seasonNumber under lexicographic string comparison. -/
def histSorted (l : List Rec) : Prop :=
  l.Pairwise (fun a b => a.seasonNumber ≤ b.seasonNumber)

/-- The three order invariants of the snapshot. -/
def orderedSnapshot (s : AppState) : Prop :=
  annSorted s.announcements ∧ chatSorted s.chatMessages ∧ histSorted s.cnflHistory

/-! ## Initial load (`fetchData` in the unnamed DataContext source) -/

/-- A gateway error `{ code, message }` as carried by a read result. -/
structure ReadError where
  code : String
  message : String
deriving Repr, DecidableEq

/-- Result of one whole-table read: `{ data, error }`. -/
structure ListReadResult where
  data : Option (List Rec) := none
  error : Option ReadError := none
deriving Repr, DecidableEq

/-- Result of the `.single()` site-settings read. -/
structure SingleReadResult where
  data : Option Rec := none
  error : Option ReadError := none
deriving Repr, DecidableEq

/-- The ten results of the initial `Promise.all` batch, in source order. -/
structure FetchResults where
  users : ListReadResult := {}
  events : ListReadResult := {}
  teams : ListReadResult := {}
  players : ListReadResult := {}
  participantTeams : ListReadResult := {}
  replacementRequests : ListReadResult := {}
  announcements : ListReadResult := {}
  chatMessages : ListReadResult := {}
  cnflHistory : ListReadResult := {}
  siteSettings : SingleReadResult := {}
deriving Repr, DecidableEq

/-- `checkError` from `fetchData`: throw unless there is no error or the
error carries the tolerated code `PGRST116`; otherwise return `data || []`. -/
def checkError (res : ListReadResult) (name : String) : Except String (List Rec) :=
  match res.error with
  | some e =>
      if e.code ≠ "PGRST116" then
        .error ("Failed to fetch " ++ name ++ ": " ++ e.message)
      else .ok (res.data.getD [])
  | none => .ok (res.data.getD [])

/-- Does this read result make `checkError` throw? -/
def fatalRead (res : ListReadResult) : Bool :=
  match res.error with
  | some e => e.code != "PGRST116"
  | none => false

/-- Does any of the nine list reads make the load throw? -/
def anyFatal (r : FetchResults) : Bool :=
  fatalRead r.users || fatalRead r.events || fatalRead r.teams || fatalRead r.players ||
  fatalRead r.participantTeams || fatalRead r.replacementRequests ||
  fatalRead r.announcements || fatalRead r.chatMessages || fatalRead r.cnflHistory

/-- The `setState({...})` object of `fetchData`: each of the nine list reads
goes through `checkError` (first failure aborts, mirroring the exception),
and the site-settings read falls back to `siteSettings.data || default`. -/
def fetchSnapshot (r : FetchResults) : Except String AppState :=
  match checkError r.users "profiles" with
  | .error m => .error m
  | .ok users =>
  match checkError r.events "events" with
  | .error m => .error m
  | .ok events =>
  match checkError r.teams "teams" with
  | .error m => .error m
  | .ok teams =>
  match checkError r.players "players" with
  | .error m => .error m
  | .ok players =>
  match checkError r.participantTeams "participant_teams" with
  | .error m => .error m
  | .ok participantTeams =>
  match checkError r.replacementRequests "replacement_requests" with
  | .error m => .error m
  | .ok replacementRequests =>
  match checkError r.announcements "announcements" with
  | .error m => .error m
  | .ok announcements =>
  match checkError r.chatMessages "chat_messages" with
  | .error m => .error m
  | .ok chatMessages =>
  match checkError r.cnflHistory "cnfl_history" with
  | .error m => .error m
  | .ok cnflHistory =>
      .ok { users := users, events := events, teams := teams, players := players,
            participantTeams := participantTeams,
            replacementRequests := replacementRequests,
            announcements := announcements, chatMessages := chatMessages,
            cnflHistory := cnflHistory,
            siteSettings := r.siteSettings.data.getD defaultSiteSettings }

/-- Observable outcome of one `fetchData` run: the state afterwards, the
loading flag, and the surfaced load-level error (the caught exception). -/
structure FetchOutcome where
  state : AppState
  loading : Bool
  loadError : Option String
deriving Repr, DecidableEq

/-- `fetchData`: on success publish the snapshot, on a thrown read error keep
the previous state and surface the error; either way clear `loading`
(the `finally` block). -/
def fetchData (s₀ : AppState) (r : FetchResults) : FetchOutcome :=
  match fetchSnapshot r with
  | .ok snap => { state := snap, loading := false, loadError := none }
  | .error msg => { state := s₀, loading := false, loadError := some msg }

/-! ## Session manager (`AuthContext.tsx`) -/

/-- Result of `supabase.auth.signUp`: the created identity (if any) and the
gateway error (if any). -/
structure SignUpResult where
  user : Option String := none
  error : Option String := none
deriving Repr, DecidableEq

/-- The distinguished partial-success message returned by `register` when
the credential was created but the profile insert failed. -/
def profileFailMessage : String :=
  "Registration succeeded, but failed to create user profile."

/-- Outcome of `register`: the returned error (if any) and whether a profile
row was created. -/
structure RegisterOutcome where
  error : Option String := none
  profileCreated : Bool := false
deriving Repr, DecidableEq

/-- `register` from `AuthContext.tsx`, parameterised by the gateway
responses: the sign-up result, and the error of the profile insert that runs
only when sign-up succeeded with a user. -/
def register (signUpRes : SignUpResult) (profileInsertError : Option String) :
    RegisterOutcome :=
  match signUpRes.error with
  | some e => { error := some e, profileCreated := false }
  | none =>
      match signUpRes.user with
      | some _ =>
          match profileInsertError with
          | some _ => { error := some profileFailMessage, profileCreated := false }
          | none => { error := none, profileCreated := true }
      | none => { error := none, profileCreated := false }

/-- Local session state `{ user, loading }` of the auth provider. -/
structure AuthLocalState where
  user : Option String := none
  loading : Bool := false
deriving Repr, DecidableEq

/-- `logout` from `AuthContext.tsx`: run the remote sign-out (whose result,
error or not, is ignored) and then `setUser(null)`. -/
def logout (s : AuthLocalState) (_signOutError : Option String) : AuthLocalState :=
  { s with user := none }

/-! ## Concrete records, events and read results used in scenarios -/

/-- Player `p1` with empty points, as returned by the initial load. -/
def recP1 : Rec := { id := "p1" }

/-- Player `p1` after the points update `[10, 20]`. -/
def recP1v2 : Rec := { id := "p1", points := [10, 20] }

/-- Announcement `a0` with the earlier timestamp. -/
def recA0 : Rec := { id := "a0", timestamp := 1 }

/-- Announcement `a1` with the later timestamp. -/
def recA1 : Rec := { id := "a1", timestamp := 2 }

/-- A snapshot whose players collection holds exactly `p1`. -/
def stateP1 : AppState := { initialState with players := [recP1] }

/-- An INSERT event for a fresh player `p9`. -/
def evInsertP9 : ChangePayload :=
  { table := "players", eventType := .INSERT, newRecord := { id := "p9" },
    oldRecord := { id := "p9" } }

/-- The UPDATE event delivering `p1` with points `[10, 20]`. -/
def evUpdateP1 : ChangePayload :=
  { table := "players", eventType := .UPDATE, newRecord := recP1v2, oldRecord := recP1 }

/-- A DELETE event for player `p1`. -/
def evDeleteP1 : ChangePayload :=
  { table := "players", eventType := .DELETE, newRecord := recP1, oldRecord := recP1 }

/-- An INSERT event for announcement `a0`. -/
def evInsertA0 : ChangePayload :=
  { table := "announcements", eventType := .INSERT, newRecord := recA0, oldRecord := recA0 }

/-- An INSERT event for announcement `a1`. -/
def evInsertA1 : ChangePayload :=
  { table := "announcements", eventType := .INSERT, newRecord := recA1, oldRecord := recA1 }

/-- An event for a table name outside the ten recognized ones. -/
def evUnknownTable : ChangePayload :=
  { table := "mystery", eventType := .INSERT, newRecord := recP1, oldRecord := recP1 }

/-- A DELETE event on `site_settings`. -/
def evSiteDelete : ChangePayload :=
  { table := "site_settings", eventType := .DELETE, newRecord := recP1, oldRecord := recP1 }

/-- Initial-load results where the players read carries an error with the
tolerated code `PGRST116` and every other read is clean. -/
def pgrstPlayersResults : FetchResults :=
  { players := { data := none, error := some { code := "PGRST116", message := "no rows" } } }

/-- Initial-load results where the players read fails with a transport-style
error code. -/
def fatalPlayersResults : FetchResults :=
  { players := { data := none, error := some { code := "500", message := "boom" } } }

theorem countId_nil (i : String) : countId i [] = 0 := rfl

theorem countId_cons (i : String) (a : Rec) (l : List Rec) :
    countId i (a :: l) = (if a.id = i then 1 else 0) + countId i l := by
  simp only [countId, List.filter_cons]
  by_cases h : a.id = i
  · simp [h]; omega
  · simp [h]

theorem countId_append (i : String) (l₁ l₂ : List Rec) :
    countId i (l₁ ++ l₂) = countId i l₁ + countId i l₂ := by
  simp [countId, List.filter_append]

theorem any_id_iff_countId_pos (i : String) (l : List Rec) :
    l.any (fun r => r.id == i) = true ↔ 0 < countId i l := by
  induction l with
  | nil => simp [countId]
  | cons a l ih =>
      rw [countId_cons]
      by_cases h : a.id = i
      · simp [h]
      · simp [h, ih]

theorem countId_filter_ne (x : String) (l : List Rec) (i : String) :
    countId i (l.filter (fun r => r.id != x)) = if i = x then 0 else countId i l := by
  induction l with
  | nil => by_cases hi : i = x <;> simp [countId, hi]
  | cons a l ih =>
      rw [List.filter_cons]
      by_cases ha : a.id = x
      · have hb : (a.id != x) = false := by simp [ha]
        rw [hb]
        simp only [Bool.false_eq_true, if_false]
        rw [ih, countId_cons]
        by_cases hi : i = x
        · simp [hi]
        · have : a.id ≠ i := by rw [ha]; exact fun h => hi h.symm
          simp [this]
      · have hb : (a.id != x) = true := by simp [ha]
        rw [hb]
        simp only [if_true]
        rw [countId_cons, ih, countId_cons]
        by_cases hi : i = x
        · have : a.id ≠ i := by rw [hi]; exact ha
          simp [this, hi, ha]
        · simp [hi]

theorem countId_insert (n o : Rec) (l : List Rec) (hu : countId n.id l ≤ 1) (i : String) :
    countId i (applyOp .INSERT n o l) = if i = n.id then 1 else countId i l := by
  simp only [applyOp]
  by_cases hg : l.any (fun item => item.id == n.id) = true
  · rw [if_pos hg]
    by_cases hi : i = n.id
    · have hpos := (any_id_iff_countId_pos n.id l).mp hg
      subst hi
      rw [if_pos rfl]; omega
    · rw [if_neg hi]
  · rw [if_neg hg]
    have h0 : countId n.id l = 0 := by
      have := (any_id_iff_countId_pos n.id l).not.mp hg
      omega
    rw [countId_append]
    by_cases hi : i = n.id
    · subst hi
      rw [if_pos rfl, h0, countId_cons, countId_nil]
      simp
    · rw [if_neg hi, countId_cons, countId_nil]
      have : n.id ≠ i := fun h => hi h.symm
      simp [this]

theorem countId_update (n o : Rec) : ∀ (l : List Rec), countId n.id l ≤ 1 → ∀ (i : String),
    countId i (applyOp .UPDATE n o l) = if i = n.id then 1 else countId i l := by
  intro l
  induction l with
  | nil =>
      intro _ i
      simp only [applyOp, List.findIdx?_nil]
      rw [List.nil_append, countId_cons, countId_nil]
      by_cases hi : i = n.id
      · simp [hi]
      · have : n.id ≠ i := fun h => hi h.symm
        simp [hi, this]
  | cons a l ih =>
      intro hu i
      have hu' : countId n.id l ≤ 1 := by
        rw [countId_cons] at hu; omega
      by_cases ha : a.id = n.id
      · have hstep : applyOp .UPDATE n o (a :: l) = n :: l := by
          simp only [applyOp, List.findIdx?_cons]
          simp [ha]
        rw [hstep, countId_cons, countId_cons]
        have h0 : countId n.id l = 0 := by
          rw [countId_cons, if_pos ha] at hu; omega
        by_cases hi : i = n.id
        · subst hi; simp [h0]
        · have : n.id ≠ i := fun h => hi h.symm
          have ha' : a.id ≠ i := by rw [ha]; exact this
          simp [hi, this, ha']
      · have hstep : applyOp .UPDATE n o (a :: l) = a :: applyOp .UPDATE n o l := by
          simp only [applyOp, List.findIdx?_cons]
          have hb : (a.id == n.id) = false := by simp [ha]
          rw [hb]
          simp only [Bool.false_eq_true, if_false]
          cases hf : l.findIdx? (fun item => item.id == n.id) with
          | none => simp [hf]
          | some j => simp [hf, List.set]
        rw [hstep, countId_cons, ih hu' i, countId_cons]
        by_cases hi : i = n.id
        · have ha' : a.id ≠ i := by rw [hi]; exact ha
          simp [hi, ha', ha]
        · simp [hi]

theorem countId_delete (n o : Rec) (l : List Rec) (i : String) :
    countId i (applyOp .DELETE n o l) = if i = o.id then 0 else countId i l := by
  simp only [applyOp]
  exact countId_filter_ne o.id l i

theorem countId_mergeSort (le : Rec → Rec → Bool) (l : List Rec) (i : String) :
    countId i (l.mergeSort le) = countId i l := by
  unfold countId
  exact ((l.mergeSort_perm le).filter _).length_eq

theorem countId_sortFor (k : StateKey) (l : List Rec) (i : String) :
    countId i (sortFor k l) = countId i l := by
  cases k <;> simp [sortFor, countId_mergeSort]

theorem getCol_setCol_self (k : StateKey) (l : List Rec) (s : AppState) :
    getCol k (setCol k l s) = l := by
  cases k <;> rfl

theorem getCol_setCol_ne (k k' : StateKey) (h : k ≠ k') (l : List Rec) (s : AppState) :
    getCol k (setCol k' l s) = getCol k s := by
  cases k <;> cases k' <;> first | exact absurd rfl h | rfl

theorem siteSettings_setCol (k : StateKey) (l : List Rec) (s : AppState) :
    (setCol k l s).siteSettings = s.siteSettings := by
  cases k <;> rfl

theorem getCol_setSiteSettings (k : StateKey) (r : Rec) (s : AppState) :
    getCol k { s with siteSettings := r } = getCol k s := by
  cases k <;> rfl

theorem tableKeyMap_site_settings : tableKeyMap "site_settings" = none := by decide

/-- What one change event does to the id-count of each collection: the
targeted (collection, id) pair ends with count 0 after a DELETE and count 1
otherwise; every other count is untouched. Needs that the event's id is not
already duplicated in the collection. -/
theorem countId_handleDbChange (e : ChangePayload) (s : AppState) (k : StateKey)
    (hu : countId (recordIdOf e) (getCol k s) ≤ 1) (i : String) :
    countId i (getCol k (handleDbChange e s)) =
      if eventTargets k i e then (if e.eventType = .DELETE then 0 else 1)
      else countId i (getCol k s) := by
  by_cases hsite : e.table = "site_settings"
  · have htarget : eventTargets k i e = false := by
      simp [eventTargets, hsite, tableKeyMap_site_settings]
    rw [htarget]
    simp only [Bool.false_eq_true, if_false]
    unfold handleDbChange
    rw [if_pos hsite]
    cases e.eventType <;> rw [getCol_setSiteSettings]
  · unfold handleDbChange
    rw [if_neg hsite]
    cases htk : tableKeyMap e.table with
    | none =>
        have htarget : eventTargets k i e = false := by
          simp [eventTargets, htk]
        rw [htarget]
        simp
    | some k' =>
        by_cases hkk : k' = k
        · rw [hkk]
          simp only []
          rw [getCol_setCol_self, countId_sortFor]
          have htarget : eventTargets k i e = (recordIdOf e == i) := by
            simp [eventTargets, htk, hkk]
          rw [htarget]
          cases het : e.eventType with
          | INSERT =>
              have hrid : recordIdOf e = e.newRecord.id := by
                simp [recordIdOf, het]
              rw [hrid] at hu
              rw [countId_insert e.newRecord e.oldRecord _ hu i]
              by_cases hi : i = e.newRecord.id
              · simp [hi, hrid]
              · have : e.newRecord.id ≠ i := fun h => hi h.symm
                simp [hi, hrid, this]
          | UPDATE =>
              have hrid : recordIdOf e = e.newRecord.id := by
                simp [recordIdOf, het]
              rw [hrid] at hu
              rw [countId_update e.newRecord e.oldRecord _ hu i]
              by_cases hi : i = e.newRecord.id
              · simp [hi, hrid]
              · have : e.newRecord.id ≠ i := fun h => hi h.symm
                simp [hi, hrid, this]
          | DELETE =>
              have hrid : recordIdOf e = e.oldRecord.id := by
                simp [recordIdOf, het]
              rw [countId_delete e.newRecord e.oldRecord _ i]
              by_cases hi : i = e.oldRecord.id
              · simp [hi, hrid]
              · have : e.oldRecord.id ≠ i := fun h => hi h.symm
                simp [hi, hrid, this]
        · have hne : k ≠ k' := fun h => hkk h.symm
          simp only []
          rw [getCol_setCol_ne k k' hne]
          have hk : ¬ tableKeyMap e.table = some k := by
            rw [htk]
            intro hc
            injection hc with hc'
            exact hkk hc'
          have htarget : eventTargets k i e = false := by
            simp [eventTargets, hk]
          rw [htarget]
          simp

theorem applyEvents_nil (s : AppState) : applyEvents [] s = s := rfl

theorem applyEvents_cons (e : ChangePayload) (es : List ChangePayload) (s : AppState) :
    applyEvents (e :: es) s = applyEvents es (handleDbChange e s) := rfl

theorem uniqueSnapshot_handleDbChange (e : ChangePayload) (s : AppState)
    (hu : uniqueSnapshot s) : uniqueSnapshot (handleDbChange e s) := by
  intro k i
  rw [countId_handleDbChange e s k (hu k (recordIdOf e)) i]
  by_cases ht : eventTargets k i e = true
  · rw [if_pos ht]
    by_cases hd : e.eventType = .DELETE
    · rw [if_pos hd]; omega
    · rw [if_neg hd]
  · rw [if_neg ht]
    exact hu k i

theorem uniqueSnapshot_applyEvents (es : List ChangePayload) :
    ∀ (s : AppState), uniqueSnapshot s → uniqueSnapshot (applyEvents es s) := by
  induction es with
  | nil => intro s hu; exact hu
  | cons e es ih =>
      intro s hu
      rw [applyEvents_cons]
      exact ih _ (uniqueSnapshot_handleDbChange e s hu)

/-- After a whole event sequence, each (collection, id) count is decided by
the last event that targeted it: 0 after a final DELETE, 1 otherwise; ids
never targeted keep their initial count. -/
theorem countId_applyEvents (k : StateKey) (i : String) :
    ∀ (es : List ChangePayload) (s : AppState), uniqueSnapshot s →
      countId i (getCol k (applyEvents es s)) =
        match lastEventFor k i es with
        | none => countId i (getCol k s)
        | some e => if e.eventType = .DELETE then 0 else 1 := by
  intro es
  induction es with
  | nil => intro s _; rfl
  | cons e es ih =>
      intro s hu
      rw [applyEvents_cons]
      rw [ih (handleDbChange e s) (uniqueSnapshot_handleDbChange e s hu)]
      cases h : lastEventFor k i es with
      | some r => simp [lastEventFor, h]
      | none =>
          simp only [lastEventFor, h]
          rw [countId_handleDbChange e s k (hu k (recordIdOf e)) i]
          by_cases ht : eventTargets k i e = true
          · simp [ht]
          · simp [ht]

theorem annSorted_mergeSort (l : List Rec) : annSorted (l.mergeSort annLe) := by
  have htrans : ∀ (a b c : Rec), annLe a b → annLe b c → annLe a c := by
    intro a b c hab hbc
    simp only [annLe, decide_eq_true_eq] at *
    omega
  have htotal : ∀ (a b : Rec), annLe a b || annLe b a := by
    intro a b
    simp only [annLe, Bool.or_eq_true, decide_eq_true_eq]
    omega
  have h := List.sorted_mergeSort htrans htotal l
  exact h.imp (fun hab => by simpa [annLe] using hab)

theorem chatSorted_mergeSort (l : List Rec) : chatSorted (l.mergeSort chatLe) := by
  have htrans : ∀ (a b c : Rec), chatLe a b → chatLe b c → chatLe a c := by
    intro a b c hab hbc
    simp only [chatLe, decide_eq_true_eq] at *
    omega
  have htotal : ∀ (a b : Rec), chatLe a b || chatLe b a := by
    intro a b
    simp only [chatLe, Bool.or_eq_true, decide_eq_true_eq]
    omega
  have h := List.sorted_mergeSort htrans htotal l
  exact h.imp (fun hab => by simpa [chatLe] using hab)

theorem histSorted_mergeSort (l : List Rec) : histSorted (l.mergeSort histLe) := by
  have htrans : ∀ (a b c : Rec), histLe a b → histLe b c → histLe a c := by
    intro a b c hab hbc
    simp only [histLe, decide_eq_true_eq] at *
    exact le_trans hab hbc
  have htotal : ∀ (a b : Rec), histLe a b || histLe b a := by
    intro a b
    simp only [histLe, Bool.or_eq_true, decide_eq_true_eq]
    exact le_total a.seasonNumber b.seasonNumber
  have h := List.sorted_mergeSort htrans htotal l
  exact h.imp (fun hab => by simpa [histLe] using hab)

theorem orderedSnapshot_setCol_sortFor (k : StateKey) (l : List Rec) (s : AppState)
    (h : orderedSnapshot s) : orderedSnapshot (setCol k (sortFor k l) s) := by
  obtain ⟨h1, h2, h3⟩ := h
  cases k <;> refine ⟨?_, ?_, ?_⟩ <;>
    first
      | exact h1
      | exact h2
      | exact h3
      | exact annSorted_mergeSort l
      | exact chatSorted_mergeSort l
      | exact histSorted_mergeSort l

theorem orderedSnapshot_handleDbChange (e : ChangePayload) (s : AppState)
    (h : orderedSnapshot s) : orderedSnapshot (handleDbChange e s) := by
  unfold handleDbChange
  by_cases hsite : e.table = "site_settings"
  · rw [if_pos hsite]
    obtain ⟨h1, h2, h3⟩ := h
    cases e.eventType <;> exact ⟨h1, h2, h3⟩
  · rw [if_neg hsite]
    cases htk : tableKeyMap e.table with
    | none => exact h
    | some k => exact orderedSnapshot_setCol_sortFor k _ s h

theorem orderedSnapshot_applyEvents (es : List ChangePayload) :
    ∀ (s : AppState), orderedSnapshot s → orderedSnapshot (applyEvents es s) := by
  induction es with
  | nil => intro s h; exact h
  | cons e es ih =>
      intro s h
      rw [applyEvents_cons]
      exact ih _ (orderedSnapshot_handleDbChange e s h)

theorem annLe_trans : ∀ (a b c : Rec), annLe a b → annLe b c → annLe a c := by
  intro a b c hab hbc
  simp only [annLe, decide_eq_true_eq] at *
  omega

theorem annLe_total : ∀ (a b : Rec), annLe a b || annLe b a := by
  intro a b
  simp only [annLe, Bool.or_eq_true, decide_eq_true_eq]
  omega

theorem chatLe_trans : ∀ (a b c : Rec), chatLe a b → chatLe b c → chatLe a c := by
  intro a b c hab hbc
  simp only [chatLe, decide_eq_true_eq] at *
  omega

theorem chatLe_total : ∀ (a b : Rec), chatLe a b || chatLe b a := by
  intro a b
  simp only [chatLe, Bool.or_eq_true, decide_eq_true_eq]
  omega

theorem histLe_trans : ∀ (a b c : Rec), histLe a b → histLe b c → histLe a c := by
  intro a b c hab hbc
  simp only [histLe, decide_eq_true_eq] at *
  exact le_trans hab hbc

theorem histLe_total : ∀ (a b : Rec), histLe a b || histLe b a := by
  intro a b
  simp only [histLe, Bool.or_eq_true, decide_eq_true_eq]
  exact le_total a.seasonNumber b.seasonNumber

theorem sortFor_idem (k : StateKey) (l : List Rec) :
    sortFor k (sortFor k l) = sortFor k l := by
  cases k <;> simp only [sortFor] <;>
    first
      | rfl
      | exact List.mergeSort_of_sorted (List.sorted_mergeSort annLe_trans annLe_total l)
      | exact List.mergeSort_of_sorted (List.sorted_mergeSort chatLe_trans chatLe_total l)
      | exact List.mergeSort_of_sorted (List.sorted_mergeSort histLe_trans histLe_total l)

theorem mem_sortFor (k : StateKey) (l : List Rec) (r : Rec) :
    r ∈ sortFor k l ↔ r ∈ l := by
  cases k <;> simp [sortFor]

theorem setCol_setCol (k : StateKey) (l l' : List Rec) (s : AppState) :
    setCol k l (setCol k l' s) = setCol k l s := by
  cases k <;> rfl

theorem applyOp_insert_of_mem (n o : Rec) (l : List Rec) (h : ∃ r ∈ l, r.id = n.id) :
    applyOp .INSERT n o l = l := by
  have hg : l.any (fun item => item.id == n.id) = true := by
    rw [List.any_eq_true]
    obtain ⟨r, hr, hid⟩ := h
    exact ⟨r, hr, by simp [hid]⟩
  simp only [applyOp]
  rw [if_pos hg]

theorem applyOp_insert_of_not_mem (n o : Rec) (l : List Rec)
    (h : ∀ r ∈ l, r.id ≠ n.id) : applyOp .INSERT n o l = l ++ [n] := by
  have hg : l.any (fun item => item.id == n.id) = false := by
    rw [List.any_eq_false]
    intro r hr
    simp [h r hr]
  simp only [applyOp]
  rw [if_neg (by simp [hg])]

theorem applyOp_update_cons_ne (n o a : Rec) (l : List Rec) (ha : a.id ≠ n.id) :
    applyOp .UPDATE n o (a :: l) = a :: applyOp .UPDATE n o l := by
  simp only [applyOp, List.findIdx?_cons]
  have hb : (a.id == n.id) = false := by simp [ha]
  rw [hb]
  simp only [Bool.false_eq_true, if_false]
  cases hf : l.findIdx? (fun item => item.id == n.id) with
  | none => simp [hf]
  | some j => simp [hf, List.set]

theorem applyOp_update_of_not_mem (n o : Rec) : ∀ (l : List Rec),
    (∀ r ∈ l, r.id ≠ n.id) → applyOp .UPDATE n o l = l ++ [n] := by
  intro l
  induction l with
  | nil => intro _; simp [applyOp]
  | cons a l ih =>
      intro h
      have ha : a.id ≠ n.id := h a (by simp)
      rw [applyOp_update_cons_ne n o a l ha, ih (fun r hr => h r (by simp [hr]))]
      rfl

theorem applyOp_update_replace (n o : Rec) : ∀ (l₁ : List Rec) (r : Rec) (l₂ : List Rec),
    (∀ x ∈ l₁, x.id ≠ n.id) → r.id = n.id →
    applyOp .UPDATE n o (l₁ ++ r :: l₂) = l₁ ++ n :: l₂ := by
  intro l₁
  induction l₁ with
  | nil =>
      intro r l₂ _ hr
      simp only [List.nil_append, applyOp, List.findIdx?_cons]
      have hb : (r.id == n.id) = true := by simp [hr]
      rw [hb]
      simp [List.set]
  | cons a l₁ ih =>
      intro r l₂ h hr
      have ha : a.id ≠ n.id := h a (by simp)
      rw [List.cons_append, applyOp_update_cons_ne n o a _ ha,
        ih r l₂ (fun x hx => h x (by simp [hx])) hr]
      rfl

theorem tableKeyMap_ne_site (t : String) (k : StateKey)
    (htk : tableKeyMap t = some k) : t ≠ "site_settings" := by
  intro h
  rw [h, tableKeyMap_site_settings] at htk
  exact Option.noConfusion htk

theorem handleDbChange_site_replace (e : ChangePayload) (s : AppState)
    (hsite : e.table = "site_settings") (he : e.eventType ≠ .DELETE) :
    handleDbChange e s = { s with siteSettings := e.newRecord } := by
  unfold handleDbChange
  rw [if_pos hsite]
  cases het : e.eventType with
  | INSERT => rfl
  | UPDATE => rfl
  | DELETE => exact absurd het he

theorem handleDbChange_site_delete (e : ChangePayload) (s : AppState)
    (hsite : e.table = "site_settings") (he : e.eventType = .DELETE) :
    handleDbChange e s = s := by
  unfold handleDbChange
  rw [if_pos hsite, he]

theorem handleDbChange_unknown (e : ChangePayload) (s : AppState)
    (hsite : e.table ≠ "site_settings") (htk : tableKeyMap e.table = none) :
    handleDbChange e s = s := by
  unfold handleDbChange
  rw [if_neg hsite, htk]

theorem handleDbChange_mapped (e : ChangePayload) (s : AppState) (k : StateKey)
    (hsite : e.table ≠ "site_settings") (htk : tableKeyMap e.table = some k) :
    handleDbChange e s =
      setCol k (sortFor k (applyOp e.eventType e.newRecord e.oldRecord (getCol k s))) s := by
  unfold handleDbChange
  rw [if_neg hsite, htk]

theorem checkError_of_not_fatal (res : ListReadResult) (name : String)
    (h : fatalRead res = false) : checkError res name = .ok (res.data.getD []) := by
  unfold fatalRead at h
  unfold checkError
  cases hres : res.error with
  | none => rfl
  | some e =>
      rw [hres] at h
      have hc : ¬ e.code ≠ "PGRST116" := by simpa using h
      simp [hc]

theorem fatalRead_false_of_ok (res : ListReadResult) (name : String) (v : List Rec)
    (h : checkError res name = .ok v) : fatalRead res = false := by
  unfold checkError at h
  unfold fatalRead
  cases hres : res.error with
  | none => rfl
  | some e =>
      rw [hres] at h
      by_cases hc : e.code ≠ "PGRST116"
      · simp [hc] at h
      · simpa using hc

theorem fetchSnapshot_ok (r : FetchResults) (h : anyFatal r = false) :
    fetchSnapshot r = .ok
      { users := r.users.data.getD [], events := r.events.data.getD [],
        teams := r.teams.data.getD [], players := r.players.data.getD [],
        participantTeams := r.participantTeams.data.getD [],
        replacementRequests := r.replacementRequests.data.getD [],
        announcements := r.announcements.data.getD [],
        chatMessages := r.chatMessages.data.getD [],
        cnflHistory := r.cnflHistory.data.getD [],
        siteSettings := r.siteSettings.data.getD defaultSiteSettings } := by
  unfold anyFatal at h
  simp only [Bool.or_eq_false_iff] at h
  obtain ⟨⟨⟨⟨⟨⟨⟨⟨h1, h2⟩, h3⟩, h4⟩, h5⟩, h6⟩, h7⟩, h8⟩, h9⟩ := h
  unfold fetchSnapshot
  rw [checkError_of_not_fatal _ _ h1, checkError_of_not_fatal _ _ h2,
    checkError_of_not_fatal _ _ h3, checkError_of_not_fatal _ _ h4,
    checkError_of_not_fatal _ _ h5, checkError_of_not_fatal _ _ h6,
    checkError_of_not_fatal _ _ h7, checkError_of_not_fatal _ _ h8,
    checkError_of_not_fatal _ _ h9]

theorem fetchSnapshot_error_of_fatal (r : FetchResults) (h : anyFatal r = true) :
    ∃ msg, fetchSnapshot r = .error msg := by
  unfold fetchSnapshot
  cases hc1 : checkError r.users "profiles" with
  | error m => exact ⟨m, rfl⟩
  | ok v1 =>
  cases hc2 : checkError r.events "events" with
  | error m => exact ⟨m, rfl⟩
  | ok v2 =>
  cases hc3 : checkError r.teams "teams" with
  | error m => exact ⟨m, rfl⟩
  | ok v3 =>
  cases hc4 : checkError r.players "players" with
  | error m => exact ⟨m, rfl⟩
  | ok v4 =>
  cases hc5 : checkError r.participantTeams "participant_teams" with
  | error m => exact ⟨m, rfl⟩
  | ok v5 =>
  cases hc6 : checkError r.replacementRequests "replacement_requests" with
  | error m => exact ⟨m, rfl⟩
  | ok v6 =>
  cases hc7 : checkError r.announcements "announcements" with
  | error m => exact ⟨m, rfl⟩
  | ok v7 =>
  cases hc8 : checkError r.chatMessages "chat_messages" with
  | error m => exact ⟨m, rfl⟩
  | ok v8 =>
  cases hc9 : checkError r.cnflHistory "cnfl_history" with
  | error m => exact ⟨m, rfl⟩
  | ok v9 =>
  exfalso
  unfold anyFatal at h
  rw [fatalRead_false_of_ok _ _ _ hc1, fatalRead_false_of_ok _ _ _ hc2,
    fatalRead_false_of_ok _ _ _ hc3, fatalRead_false_of_ok _ _ _ hc4,
    fatalRead_false_of_ok _ _ _ hc5, fatalRead_false_of_ok _ _ _ hc6,
    fatalRead_false_of_ok _ _ _ hc7, fatalRead_false_of_ok _ _ _ hc8,
    fatalRead_false_of_ok _ _ _ hc9] at h
  simp at h

/-! ## Claims -/

/-- C1: applying any event sequence to a snapshot whose collections have
unique ids keeps every collection free of duplicate ids, and in each
collection the multiplicity of an id is decided by the last event targeting
it: exactly one entry when that event is an INSERT or UPDATE, zero when it
is a DELETE. -/
theorem applyEvents_unique_and_final (k : StateKey) (es : List ChangePayload)
    (s : AppState) (hu : uniqueSnapshot s) :
    uniqueSnapshot (applyEvents es s) ∧
    (∀ (i : String) (e : ChangePayload), lastEventFor k i es = some e →
      e.eventType ≠ .DELETE → countId i (getCol k (applyEvents es s)) = 1) ∧
    (∀ (i : String) (e : ChangePayload), lastEventFor k i es = some e →
      e.eventType = .DELETE → countId i (getCol k (applyEvents es s)) = 0) := by
  refine ⟨uniqueSnapshot_applyEvents es s hu, ?_, ?_⟩
  · intro i e hl hd
    rw [countId_applyEvents k i es s hu, hl]
    simp [hd]
  · intro i e hl hd
    rw [countId_applyEvents k i es s hu, hl]
    simp [hd]

/-- Witness for C1 at a concrete input: one INSERT on the empty initial
snapshot. -/
theorem applyEvents_unique_and_final_witness :
    uniqueSnapshot (applyEvents [evInsertP9] initialState) ∧
    (∀ (i : String) (e : ChangePayload), lastEventFor .players i [evInsertP9] = some e →
      e.eventType ≠ .DELETE →
      countId i (getCol .players (applyEvents [evInsertP9] initialState)) = 1) ∧
    (∀ (i : String) (e : ChangePayload), lastEventFor .players i [evInsertP9] = some e →
      e.eventType = .DELETE →
      countId i (getCol .players (applyEvents [evInsertP9] initialState)) = 0) :=
  applyEvents_unique_and_final .players [evInsertP9] initialState (by
    intro k i
    cases k <;> simp [initialState, getCol, countId])

/-- C2: after any event sequence on a snapshot satisfying the order
invariants, announcements are in non-increasing timestamp order, chat
messages in non-decreasing timestamp order, and history in non-decreasing
seasonNumber order under lexicographic string comparison. -/
theorem applyEvents_order_invariants (es : List ChangePayload) (s : AppState)
    (h : orderedSnapshot s) :
    annSorted (applyEvents es s).announcements ∧
    chatSorted (applyEvents es s).chatMessages ∧
    histSorted (applyEvents es s).cnflHistory :=
  orderedSnapshot_applyEvents es s h

/-- Witness for C2: two announcement INSERTs on the initial snapshot. -/
theorem applyEvents_order_invariants_witness :
    annSorted (applyEvents [evInsertA0, evInsertA1] initialState).announcements ∧
    chatSorted (applyEvents [evInsertA0, evInsertA1] initialState).chatMessages ∧
    histSorted (applyEvents [evInsertA0, evInsertA1] initialState).cnflHistory :=
  applyEvents_order_invariants [evInsertA0, evInsertA1] initialState
    ⟨List.Pairwise.nil, List.Pairwise.nil, List.Pairwise.nil⟩

/-- C3: an UPDATE replaces the first element carrying the event's newRecord
id, appends when no element matches (never dropped), and the `p1` points
scenario holds through `handleDbChange`. -/
theorem update_replaces_or_appends (n o : Rec) :
    (∀ (l₁ : List Rec) (r : Rec) (l₂ : List Rec),
      (∀ x ∈ l₁, x.id ≠ n.id) → r.id = n.id →
      applyOp .UPDATE n o (l₁ ++ r :: l₂) = l₁ ++ n :: l₂) ∧
    (∀ (l : List Rec), (∀ x ∈ l, x.id ≠ n.id) →
      applyOp .UPDATE n o l = l ++ [n]) ∧
    (handleDbChange evUpdateP1 stateP1).players = [recP1v2] := by
  refine ⟨applyOp_update_replace n o, applyOp_update_of_not_mem n o, ?_⟩
  rfl

/-- Witness for C3: the matching element of a one-element collection is
replaced. -/
theorem update_replaces_or_appends_witness :
    applyOp .UPDATE recP1v2 recP1 ([] ++ recP1 :: []) = [] ++ recP1v2 :: [] :=
  (update_replaces_or_appends recP1v2 recP1).1 [] recP1 [] (by simp) rfl

/-- C4: applying the same INSERT event twice yields the same snapshot as
applying it once, because an INSERT appends its newRecord only when no
existing element of the target collection shares its id. -/
theorem insert_event_idempotent (e : ChangePayload) (s : AppState)
    (he : e.eventType = .INSERT) :
    handleDbChange e (handleDbChange e s) = handleDbChange e s ∧
    (∀ (l : List Rec), (∃ r ∈ l, r.id = e.newRecord.id) →
      applyOp .INSERT e.newRecord e.oldRecord l = l) ∧
    (∀ (l : List Rec), (∀ r ∈ l, r.id ≠ e.newRecord.id) →
      applyOp .INSERT e.newRecord e.oldRecord l = l ++ [e.newRecord]) := by
  refine ⟨?_, fun l h => applyOp_insert_of_mem _ _ l h,
    fun l h => applyOp_insert_of_not_mem _ _ l h⟩
  by_cases hsite : e.table = "site_settings"
  · have hrep : ∀ (t : AppState), handleDbChange e t = { t with siteSettings := e.newRecord } := by
      intro t
      refine handleDbChange_site_replace e t hsite ?_
      intro hc
      rw [he] at hc
      exact EventType.noConfusion hc
    rw [hrep s, hrep { s with siteSettings := e.newRecord }]
  · cases htk : tableKeyMap e.table with
    | none =>
        rw [handleDbChange_unknown e s hsite htk, handleDbChange_unknown e s hsite htk]
    | some k =>
        have h1 : handleDbChange e s =
            setCol k (sortFor k (applyOp .INSERT e.newRecord e.oldRecord (getCol k s))) s := by
          rw [handleDbChange_mapped e s k hsite htk, he]
        have hmem : ∃ r ∈ sortFor k (applyOp .INSERT e.newRecord e.oldRecord (getCol k s)),
            r.id = e.newRecord.id := by
          by_cases hg : ∃ r ∈ getCol k s, r.id = e.newRecord.id
          · rw [applyOp_insert_of_mem _ _ _ hg]
            obtain ⟨r, hr, hid⟩ := hg
            exact ⟨r, (mem_sortFor k _ r).mpr hr, hid⟩
          · push_neg at hg
            rw [applyOp_insert_of_not_mem _ _ _ hg]
            exact ⟨e.newRecord, (mem_sortFor k _ _).mpr (by simp), rfl⟩
        rw [h1, handleDbChange_mapped e _ k hsite htk, he, getCol_setCol_self,
          applyOp_insert_of_mem _ _ _ hmem, sortFor_idem, setCol_setCol]

/-- Witness for C4 at a concrete INSERT event. -/
theorem insert_event_idempotent_witness :
    handleDbChange evInsertP9 (handleDbChange evInsertP9 initialState) =
      handleDbChange evInsertP9 initialState ∧
    (∀ (l : List Rec), (∃ r ∈ l, r.id = evInsertP9.newRecord.id) →
      applyOp .INSERT evInsertP9.newRecord evInsertP9.oldRecord l = l) ∧
    (∀ (l : List Rec), (∀ r ∈ l, r.id ≠ evInsertP9.newRecord.id) →
      applyOp .INSERT evInsertP9.newRecord evInsertP9.oldRecord l =
        l ++ [evInsertP9.newRecord]) :=
  insert_event_idempotent evInsertP9 initialState rfl

/-- C5 counterexample to the claim as stated: a players read that fails with
error code `PGRST116` does not abort the load — the outcome surfaces no
load-level error, though the claim demands that any read error on the nine
non-SiteSettings collections is fatal. -/
theorem fetchData_pgrst_counterexample :
    pgrstPlayersResults.players.error.isSome = true ∧
    (fetchData initialState pgrstPlayersResults).loadError = none := by
  constructor
  · rfl
  · rfl

/-- C5 (amended): a read error whose code is not the tolerated `PGRST116` on
any of the nine list collections aborts the whole load — the state keeps its
previous value, the loading flag is cleared and the failure is surfaced —
while with no fatal read error a SiteSettings read that finds no row is
non-fatal and falls back to the default singleton. -/
theorem fetchData_load_failure_semantics (s₀ : AppState) (r : FetchResults) :
    (anyFatal r = true →
      (fetchData s₀ r).state = s₀ ∧ (fetchData s₀ r).loading = false ∧
      (fetchData s₀ r).loadError.isSome = true) ∧
    (anyFatal r = false → r.siteSettings.data = none →
      (fetchData s₀ r).loadError = none ∧ (fetchData s₀ r).loading = false ∧
      (fetchData s₀ r).state.siteSettings = defaultSiteSettings) := by
  constructor
  · intro h
    obtain ⟨msg, hmsg⟩ := fetchSnapshot_error_of_fatal r h
    unfold fetchData
    rw [hmsg]
    exact ⟨rfl, rfl, rfl⟩
  · intro h hsd
    unfold fetchData
    rw [fetchSnapshot_ok r h]
    refine ⟨rfl, rfl, ?_⟩
    simp [hsd]

/-- Witness for C5 (amended): a transport-style players failure aborts; the
no-row SiteSettings read falls back to the default. -/
theorem fetchData_load_failure_witness :
    ((fetchData initialState fatalPlayersResults).state = initialState ∧
      (fetchData initialState fatalPlayersResults).loading = false ∧
      (fetchData initialState fatalPlayersResults).loadError.isSome = true) ∧
    ((fetchData initialState pgrstPlayersResults).loadError = none ∧
      (fetchData initialState pgrstPlayersResults).loading = false ∧
      (fetchData initialState pgrstPlayersResults).state.siteSettings =
        defaultSiteSettings) :=
  ⟨(fetchData_load_failure_semantics initialState fatalPlayersResults).1 (by decide),
   (fetchData_load_failure_semantics initialState pgrstPlayersResults).2 (by decide) rfl⟩

/-- C6: register surfaces the sign-up error without touching the profile
table; when only the profile insert fails it returns the distinguished
partial-success message (and no profile row exists); when both steps succeed
it returns no error. -/
theorem register_outcomes (res : SignUpResult) (pErr : Option String) :
    (∀ msg, res.error = some msg →
      register res pErr = { error := some msg, profileCreated := false }) ∧
    (res.error = none → res.user.isSome = true → pErr.isSome = true →
      (register res pErr).error = some profileFailMessage ∧
      (register res pErr).profileCreated = false) ∧
    (res.error = none → res.user.isSome = true → pErr = none →
      register res pErr = { error := none, profileCreated := true }) := by
  refine ⟨?_, ?_, ?_⟩
  · intro msg h
    simp [register, h]
  · intro h1 h2 h3
    cases hu : res.user with
    | none => rw [hu] at h2; exact absurd h2 (by simp)
    | some u =>
        cases hp : pErr with
        | none => rw [hp] at h3; exact absurd h3 (by simp)
        | some m => simp [register, h1, hu, hp]
  · intro h1 h2 h3
    cases hu : res.user with
    | none => rw [hu] at h2; exact absurd h2 (by simp)
    | some u => simp [register, h1, hu, h3]

/-- Witness for C6: credential creation succeeds, profile insert fails. -/
theorem register_outcomes_witness :
    (register { user := some "u1", error := none } (some "insert failed")).error =
      some profileFailMessage ∧
    (register { user := some "u1", error := none } (some "insert failed")).profileCreated =
      false :=
  (register_outcomes { user := some "u1", error := none } (some "insert failed")).2.1
    rfl rfl rfl

/-- C7: logout clears the local user unconditionally, whatever the remote
sign-out call returned. -/
theorem logout_clears_user (s : AuthLocalState) (signOutError : Option String) :
    (logout s signOutError).user = none := rfl

/-- C8: a DELETE event removes exactly the entries carrying the event's
oldRecord id; with no matching entry it is a no-op leaving the collection
(and hence its length) unchanged. -/
theorem delete_removes_matching (n o : Rec) :
    (∀ (l : List Rec), (∀ r ∈ l, r.id ≠ o.id) → applyOp .DELETE n o l = l) ∧
    (∀ (l : List Rec) (r : Rec), r ∈ applyOp .DELETE n o l ↔ r ∈ l ∧ r.id ≠ o.id) ∧
    (∀ (l : List Rec) (i : String),
      countId i (applyOp .DELETE n o l) = if i = o.id then 0 else countId i l) := by
  refine ⟨?_, ?_, fun l i => countId_delete n o l i⟩
  · intro l h
    simp only [applyOp]
    rw [List.filter_eq_self]
    intro r hr
    simp [h r hr]
  · intro l r
    simp only [applyOp]
    rw [List.mem_filter]
    simp

/-- Witness for C8: deleting an absent id is a no-op. -/
theorem delete_removes_matching_witness :
    applyOp .DELETE recP1 recP1 [recA0] = [recA0] :=
  (delete_removes_matching recP1 recP1).1 [recA0] (by
    intro r hr
    rw [List.mem_singleton] at hr
    subst hr
    decide)

/-- C9: one event touches at most its own collection — every other list
collection and the singleton are unchanged — and a site_settings event
leaves all nine list collections unchanged. -/
theorem event_frame (e : ChangePayload) (s : AppState) :
    (∀ (k k' : StateKey), tableKeyMap e.table = some k → k' ≠ k →
      getCol k' (handleDbChange e s) = getCol k' s) ∧
    (∀ (k : StateKey), tableKeyMap e.table = some k →
      (handleDbChange e s).siteSettings = s.siteSettings) ∧
    (e.table = "site_settings" → ∀ (k' : StateKey),
      getCol k' (handleDbChange e s) = getCol k' s) := by
  refine ⟨?_, ?_, ?_⟩
  · intro k k' htk hkk
    rw [handleDbChange_mapped e s k (tableKeyMap_ne_site _ k htk) htk]
    exact getCol_setCol_ne k' k hkk _ s
  · intro k htk
    rw [handleDbChange_mapped e s k (tableKeyMap_ne_site _ k htk) htk]
    exact siteSettings_setCol k _ s
  · intro hsite k'
    by_cases he : e.eventType = .DELETE
    · rw [handleDbChange_site_delete e s hsite he]
    · rw [handleDbChange_site_replace e s hsite he]
      exact getCol_setSiteSettings k' _ s

/-- Witness for C9: a players UPDATE leaves users and the singleton
unchanged. -/
theorem event_frame_witness :
    getCol .users (handleDbChange evUpdateP1 initialState) = getCol .users initialState ∧
    (handleDbChange evUpdateP1 initialState).siteSettings = initialState.siteSettings :=
  ⟨(event_frame evUpdateP1 initialState).1 .players .users (by decide) (by decide),
   (event_frame evUpdateP1 initialState).2.1 .players (by decide)⟩

/-- C10: an event whose table is not one of the ten recognized names, and a
site_settings DELETE, leave the entire snapshot unchanged. -/
theorem unrecognized_event_noop (e : ChangePayload) (s : AppState) :
    (e.table ≠ "site_settings" → tableKeyMap e.table = none → handleDbChange e s = s) ∧
    (e.table = "site_settings" → e.eventType = .DELETE → handleDbChange e s = s) :=
  ⟨fun hsite htk => handleDbChange_unknown e s hsite htk,
   fun hsite he => handleDbChange_site_delete e s hsite he⟩

/-- Witness for C10: an unrecognized table and a site_settings DELETE. -/
theorem unrecognized_event_noop_witness :
    handleDbChange evUnknownTable initialState = initialState ∧
    handleDbChange evSiteDelete initialState = initialState :=
  ⟨(unrecognized_event_noop evUnknownTable initialState).1 (by decide) (by decide),
   (unrecognized_event_noop evSiteDelete initialState).2 rfl rfl⟩

end Cnfl
